import Mathlib

/-!
Verification development for the near-earth-objects query/search subsystem
(`starter/models.py`, `starter/database.py`, `starter/search.py`).

The Python code is shallowly embedded: Python dicts become association lists,
Python floats become a pair of an exact rational value and the string produced
by `str()` (only those two facets of a float are ever consumed by the code
under verification), runtime exceptions become an explicit `Except PyError`
result, and Python's universal value type, where it leaks into comparisons,
becomes the closed sum `PyVal`.
-/

namespace Starter

/-- The runtime exceptions the embedded code can raise.  `unsupportedFeature`
models the `UnsupportedFeature` class from the repository's `exceptions`
module (imported by `search.py` line 4); the module itself is not part of the
source tree, and the embedded code never raises it. -/
inductive PyError
  | typeError
  | attributeError
  | keyError
  | indexError
  | valueError
  | unsupportedFeature
deriving DecidableEq, Repr

/-- Python code-point comparison of character lists (the order Python uses for
`str < str`). -/
def strLtAux : List Char → List Char → Bool
  | [], [] => false
  | [], _ :: _ => true
  | _ :: _, [] => false
  | a :: as, b :: bs =>
    if a.val < b.val then true
    else if b.val < a.val then false
    else strLtAux as bs

/-- Python `a < b` on strings: lexicographic comparison by code point. -/
def pyStrLt (a b : String) : Bool := strLtAux a.data b.data

/-- Python `a <= b` on strings. -/
def pyStrLe (a b : String) : Bool := !(pyStrLt b a)

/-- Python `a >= b` on strings. -/
def pyStrGe (a b : String) : Bool := pyStrLe b a

/-- Splitting a character list on a separator, Python `str.split(sep)` style
(adjacent separators produce empty fields). -/
def splitAux (sep : Char) : List Char → List Char → List String
  | [], acc => [String.mk acc.reverse]
  | c :: rest, acc =>
    if c = sep then String.mk acc.reverse :: splitAux sep rest []
    else splitAux sep rest (c :: acc)

/-- Python `s.split(':')` as used on filter tokens in `search.py`. -/
def pySplitColon (s : String) : List String := splitAux ':' s.data []

/-- A Python float as the code observes it: its exact numeric value and the
string `str()` renders it as.  The embedded code only ever compares a float
for equality against a string (always false in Python), converts it with
`str()`, or carries it around, so these two facets are a complete model. -/
structure PyFloat where
  val : Rat
  str : String
deriving DecidableEq, Repr

/-- Drop leading zeros of an integer-part digit list, keeping a single zero. -/
def stripLeadingZeros (cs : List Char) : List Char :=
  match cs.dropWhile (fun c => c = '0') with
  | [] => ['0']
  | r => r

/-- Drop trailing zeros of a fractional digit list. -/
def stripTrailingZeros (cs : List Char) : List Char :=
  (cs.reverse.dropWhile (fun c => c = '0')).reverse

/-- Value of a digit list read in base 10, `none` if empty or non-digit. -/
def digitsToNat : List Char → Option Nat
  | [] => none
  | cs =>
    cs.foldl
      (fun acc? c =>
        match acc? with
        | none => none
        | some acc => if c.isDigit then some (acc * 10 + (c.toNat - 48)) else none)
      (some 0)

/-- Python `float(s)` (models.py lines 15 and 45) on plain decimal literals:
an optional minus sign, a digit string, and an optional fractional digit
string.  The paired `str` is Python's rendering of such a float (leading
zeros of the integer part and trailing zeros of the fraction dropped, a
fraction of `.0` always shown).  Exponent, infinity, nan and whitespace forms
of the literal are outside the modeled input space; on anything else the
model, like Python, raises `ValueError`. -/
def pyFloatOfString (s : String) : Except PyError PyFloat :=
  let cs := s.data
  let (neg, body) := match cs with
    | '-' :: rest => (true, rest)
    | _ => (false, cs)
  match splitAux '.' body [] with
  | [ip] =>
    match digitsToNat ip.data with
    | none => .error .valueError
    | some i =>
      .ok ⟨(if neg then -(i : Rat) else (i : Rat)),
           (if neg then "-" else "") ++ String.mk (stripLeadingZeros ip.data) ++ ".0"⟩
  | [ip, fp] =>
    match digitsToNat ip.data, digitsToNat fp.data with
    | some i, some f =>
      let q : Rat := (i : Rat) + (f : Rat) / ((10 : Rat) ^ fp.data.length)
      let fr := stripTrailingZeros fp.data
      .ok ⟨(if neg then -q else q),
           (if neg then "-" else "") ++ String.mk (stripLeadingZeros ip.data) ++ "." ++
             String.mk (if fr.isEmpty then ['0'] else fr)⟩
    | _, _ => .error .valueError
  | _ => .error .valueError

/-- models.py `OrbitPath`: owning entry name, miss distance (`float`), and the
optional close-approach date (`kwargs.get('close_approach_date', None)`). -/
structure OrbitPath where
  neo_name : String
  miss_distance_kilometers : PyFloat
  close_approach_date : Option String
deriving DecidableEq, Repr

/-- models.py `NearEarthObject`: id, unique name, minimum estimated diameter
(`float`), the raw hazard-flag string from the record, and the list of
appended orbits. -/
structure NearEarthObject where
  id : String
  name : String
  diameter_min_km : PyFloat
  is_potentially_hazardous_asteroid : String
  orbits : List OrbitPath
deriving DecidableEq, Repr

/-- The Python values that can flow into a `Filter` comparison: a float
attribute, a string attribute, or `None`. -/
inductive PyVal
  | float (f : PyFloat)
  | str (s : String)
  | pynone
deriving DecidableEq, Repr

/-- Python `str(v)` on the values above. -/
def PyVal.pyStr : PyVal → String
  | .float f => f.str
  | .str s => s
  | .pynone => "None"

/-- Runtime attribute lookup on a `NearEarthObject` for the scalar attributes
set in models.py lines 13-16; `none` models `AttributeError`.  The `orbits`
attribute is a list, not a scalar, and is unreachable through
`Filter.Options`, so it is outside this table. -/
def NearEarthObject.getattr (n : NearEarthObject) (attr : String) : Option PyVal :=
  if attr == "id" then some (.str n.id)
  else if attr == "name" then some (.str n.name)
  else if attr == "diameter_min_km" then some (.float n.diameter_min_km)
  else if attr == "is_potentially_hazardous_asteroid" then
    some (.str n.is_potentially_hazardous_asteroid)
  else none

/-- Runtime attribute lookup on an `OrbitPath` (models.py lines 44-46). -/
def OrbitPath.getattr (o : OrbitPath) (attr : String) : Option PyVal :=
  if attr == "neo_name" then some (.str o.neo_name)
  else if attr == "miss_distance_kilometers" then some (.float o.miss_distance_kilometers)
  else if attr == "close_approach_date" then
    some (match o.close_approach_date with
          | some d => .str d
          | none => .pynone)
  else none

/-- search.py `Filter`: field name, target object name, operator symbol, and
the raw string value from the filter token. -/
structure Filter where
  field : String
  object : String
  operation : String
  value : String
deriving DecidableEq, Repr

/-- The three comparison operators of `Filter.Operators`. -/
inductive PyOp
  | eq
  | gt
  | ge
deriving DecidableEq, Repr

/-- search.py lines 87-92: `Filter.Operators.get`. -/
def Filter.Operators (s : String) : Option PyOp :=
  if s == "=" then some .eq
  else if s == ">" then some .gt
  else if s == ">=" then some .ge
  else none

/-- search.py lines 80-85: `Filter.Options.get`, the fixed field table. -/
def Filter.Options (s : String) : Option String :=
  if s == "diameter" then some "diameter_min_km"
  else if s == "distance" then some "miss_distance_kilometers"
  else if s == "is_hazardous" then some "is_potentially_hazardous_asteroid"
  else none

/-- The comparison at search.py lines 142-147.  `operation(value, self.value)`
compares an attribute value with the token string `self.value`:
Python `float == str` is `False` without raising, so equality on a float
attribute never enters the `except` branch and is always false;
`float > str` and `float >= str` raise `TypeError`, and the `except` branch
then compares `str(value)` with `str(self.value)` as strings, which for a
string attribute coincides with the direct comparison the `try` branch
performed. -/
def evalCompare : PyOp → PyVal → String → Bool
  | .eq, .float _, _ => false
  | .eq, .pynone, _ => false
  | .eq, .str s, v => s == v
  | .gt, x, v => pyStrLt v x.pyStr
  | .ge, x, v => pyStrLe v x.pyStr

/-- The per-element body of `Filter.apply` (search.py lines 137-147),
parametric in the runtime attribute lookup of the entity type, mirroring
Python's duck typing.  Evaluation order follows the source: the two table
lookups are pure, `getattr` runs before the `try` block (an unrecognized
field makes `Filter.Options.get` return `None` and `getattr(obj, None)`
raises `TypeError`; a missing attribute raises `AttributeError`), and an
unrecognized operator makes both the `try` and the `except` branch call
`None`, raising `TypeError`. -/
def Filter.applyOne (ga : α → String → Option PyVal) (f : Filter) (x : α) :
    Except PyError Bool :=
  match Filter.Options f.field with
  | none => .error .typeError
  | some attr =>
    match ga x attr with
    | none => .error .attributeError
    | some v =>
      match Filter.Operators f.operation with
      | none => .error .typeError
      | some op => .ok (evalCompare op v f.value)

/-- search.py lines 127-149: `Filter.apply`, the loop accumulating the
entities that pass the comparison, in input order; an exception from the
body propagates and discards the partial list. -/
def Filter.apply (ga : α → String → Option PyVal) (f : Filter) :
    List α → Except PyError (List α)
  | [] => .ok []
  | x :: rest =>
    match Filter.applyOne ga f x with
    | .error e => .error e
    | .ok b =>
      match Filter.apply ga f rest with
      | .error e => .error e
      | .ok tail => .ok (if b then x :: tail else tail)

/-- search.py lines 106-125: `Filter.create_filter_options`.  For every token
the loop body first evaluates `NearEarthObject()` (line 121) with no keyword
arguments; models.py line 13 then evaluates `kwargs['id']`, raising
`KeyError` before `hasattr` is ever consulted.  Only the empty token list
completes, returning the empty defaultdict. -/
def Filter.create_filter_options (filter_options : List String) :
    Except PyError (List (String × List String)) :=
  match filter_options with
  | [] => .ok []
  | _ :: _ => .error .keyError

/-- search.py lines 65-70: the loop turning grouped tokens into `Filter`
values.  Reachable only with the empty dict, since `create_filter_options`
raises for every non-empty token list; the out-of-range indexings that
Python would fault on in this dead code are totalized with `""`. -/
def buildFiltersFromOptions (options : List (String × List String)) : List Filter :=
  options.foldr
    (fun kv acc =>
      kv.2.map
        (fun tok =>
          ⟨(pySplitColon tok).headD "",
           kv.1,
           (pySplitColon tok).getD 1 "",
           ((pySplitColon tok).getLast?).getD ""⟩) ++ acc)
    []

/-- The value stored in the `values` slot of the `Query.DateSearch`
namedtuple: `self.date` itself (a string) in `equals` mode, or the two-element
list `[self.start_date, self.end_date]` (whose entries may be `None`) in
`between` mode. -/
inductive PyDateVal
  | str (s : String)
  | list (l : List (Option String))
deriving DecidableEq, Repr

/-- Python subscripting `date[i]` on the stored value: indexing a string
yields a one-character string, indexing the list yields its (possibly `None`)
element, and an out-of-range index raises `IndexError`. -/
def PyDateVal.getIdx : PyDateVal → Nat → Except PyError (Option String)
  | .str s, i =>
    match s.data[i]? with
    | some c => .ok (some (String.mk [c]))
    | none => .error .indexError
  | .list l, i =>
    match l[i]? with
    | some x => .ok x
    | none => .error .indexError

/-- Python `key == date` where `key` is a string dict key and `date` is the
stored `values` slot: a string never equals a list. -/
def pyEqKey (k : String) (d : PyDateVal) : Bool :=
  match d with
  | .str s => k == s
  | .list _ => false

/-- search.py `Query.DateSearch` namedtuple. -/
structure DateSearchSel where
  type : String
  values : PyDateVal
deriving DecidableEq, Repr

/-- The two class objects of `Query.ReturnObjects`. -/
inductive ReturnObj
  | NEO
  | Path
deriving DecidableEq, Repr

/-- search.py line 31: `Query.ReturnObjects.get`. -/
def Query.ReturnObjects (s : String) : Option ReturnObj :=
  if s == "NEO" then some .NEO
  else if s == "Path" then some .Path
  else none

/-- search.py `Query.Selectors` namedtuple.  `return_object` is the result of
`ReturnObjects.get`, hence an `Option`. -/
structure Selectors where
  date_search : DateSearchSel
  number : Int
  filters : List Filter
  return_object : Option ReturnObj
deriving DecidableEq, Repr

/-- Replace the filter list of a plan, the other slots unchanged. -/
def Selectors.withFilters (q : Selectors) (fs : List Filter) : Selectors :=
  ⟨q.date_search, q.number, fs, q.return_object⟩

/-- search.py lines 33-43: the raw query parameters held on a `Query`. -/
structure Query where
  date : Option String
  end_date : Option String
  start_date : Option String
  number : Int
  filter : Option (List String)
  return_object : String
deriving DecidableEq, Repr

/-- search.py lines 45-72: `Query.build_query`.  `if self.date` picks the
`equals` descriptor when the date is a non-empty string; `ReturnObjects.get`
returns `None` for an unrecognized result-shape name without raising; a
non-empty raw filter list reaches `create_filter_options`, whose exception
propagates. -/
def Query.build_query (q : Query) : Except PyError Selectors :=
  let data_search : DateSearchSel :=
    match q.date with
    | some s =>
      if s == "" then ⟨"between", .list [q.start_date, q.end_date]⟩
      else ⟨"equals", .str s⟩
    | none => ⟨"between", .list [q.start_date, q.end_date]⟩
  let return_to_object := Query.ReturnObjects q.return_object
  match q.filter with
  | none => .ok ⟨data_search, q.number, [], return_to_object⟩
  | some fl =>
    if fl.isEmpty then .ok ⟨data_search, q.number, [], return_to_object⟩
    else
      match Filter.create_filter_options fl with
      | .error e => .error e
      | .ok options =>
        .ok ⟨data_search, q.number, buildFiltersFromOptions options, return_to_object⟩

/-- database.py `NEODatabase`: the by-name dict and the by-date dict, as
association lists (Python dict keys are unique; lookup is by key equality). -/
structure NEODatabase where
  neo_name : List (String × NearEarthObject)
  neo_date : List (String × List NearEarthObject)
deriving DecidableEq, Repr

/-- Python `dict.get(key)`: first binding of the key, else `None`. -/
def dictGet (d : List (String × α)) (key : String) : Option α :=
  match d with
  | [] => none
  | (k, v) :: rest => if k == key then some v else dictGet rest key

/-- models.py lines 38-46: `OrbitPath(**row)`.  A missing required key raises
`KeyError`; `float` on the miss distance can raise `ValueError`; the
close-approach date uses `.get` with default `None`. -/
def OrbitPath.ofRow (row : List (String × String)) : Except PyError OrbitPath :=
  match dictGet row "name" with
  | none => .error .keyError
  | some nm =>
    match dictGet row "miss_distance_kilometers" with
    | none => .error .keyError
    | some ds =>
      match pyFloatOfString ds with
      | .error e => .error e
      | .ok d => .ok ⟨nm, d, dictGet row "close_approach_date"⟩

/-- database.py lines 45-58: the per-row loop of `NEODatabase.load_data`,
taking the already-parsed record sequence (CSV reading is external I/O).
Line 46 constructs the `OrbitPath`; line 48 then evaluates
`self.neo_name[['name']]`, subscripting the dict with the list literal
`['name']` — a list is unhashable, so this raises `TypeError` on every row,
before any index entry is created. -/
def NEODatabase.load_data (db : NEODatabase) :
    List (List (String × String)) → Except PyError NEODatabase
  | [] => .ok db
  | row :: _rest =>
    match OrbitPath.ofRow row with
    | .error e => .error e
    | .ok _orbit_path => .error .typeError

/-- search.py lines 217-222: `return_date_search_equal`, collecting the value
lists of the date-index keys equal to the stored date value, in index order. -/
def NEOSearcher.return_date_search_equal
    (orbit_path : List (String × List NearEarthObject)) (date : PyDateVal) :
    List NearEarthObject :=
  match orbit_path with
  | [] => []
  | (k, v) :: rest =>
    if pyEqKey k date then v ++ NEOSearcher.return_date_search_equal rest date
    else NEOSearcher.return_date_search_equal rest date

/-- search.py lines 224-229: `return_date_search_between`, collecting the
value lists of the keys with `key >= start and key <= end` under Python
string comparison.  The bounds may be `None` (the `between` descriptor stores
`[self.start_date, self.end_date]` verbatim); comparing a string key against
`None` raises `TypeError`, and the short-circuit `and` only reaches the end
bound when `key >= start` holds. -/
def NEOSearcher.return_date_search_between
    (orbit_path : List (String × List NearEarthObject))
    (start_date end_date : Option String) : Except PyError (List NearEarthObject) :=
  match orbit_path with
  | [] => .ok []
  | (k, v) :: rest =>
    match start_date with
    | none => .error .typeError
    | some s =>
      if pyStrGe k s then
        match end_date with
        | none => .error .typeError
        | some e =>
          if pyStrLe k e then
            match NEOSearcher.return_date_search_between rest start_date end_date with
            | .error err => .error err
            | .ok tail => .ok (v ++ tail)
          else NEOSearcher.return_date_search_between rest start_date end_date
      else NEOSearcher.return_date_search_between rest start_date end_date

/-- search.py lines 231-235: `return_orbit_paths_from_neos`. -/
def NEOSearcher.return_orbit_paths_from_neos : List NearEarthObject → List OrbitPath
  | [] => []
  | n :: rest => n.orbits ++ NEOSearcher.return_orbit_paths_from_neos rest

/-- search.py lines 237-239: `return_neo_from_orbit_path`; `dict.get` can
yield `None`, so the produced list holds optional entries. -/
def NEOSearcher.return_neo_from_orbit_path (db : NEODatabase)
    (orbit_paths : List OrbitPath) : List (Option NearEarthObject) :=
  orbit_paths.map (fun p => dictGet db.neo_name p.neo_name)

/-- search.py lines 186-191: the date-selection stage of `get_objects`
(`neos` starts as `[]` and keeps that value if neither branch matches). -/
def NEOSearcher.dateStage (db : NEODatabase) (q : Selectors) :
    Except PyError (List NearEarthObject) :=
  if q.date_search.type == "equals" then
    .ok (NEOSearcher.return_date_search_equal db.neo_date q.date_search.values)
  else if q.date_search.type == "between" then
    match q.date_search.values.getIdx 0 with
    | .error e => .error e
    | .ok s? =>
      match q.date_search.values.getIdx 1 with
      | .error e => .error e
      | .ok e? => NEOSearcher.return_date_search_between db.neo_date s? e?
  else .ok []

/-- The test `selectedfilter.field == 'distance'` of search.py line 195. -/
def isDistance (f : Filter) : Bool := f.field == "distance"

/-- search.py lines 193-198: the filter loop of `get_objects`.  A filter on
the `distance` field is remembered (each one overwriting the previous) and
skipped; every other filter is applied to the entry list immediately. -/
def NEOSearcher.filterLoop :
    List Filter → Option Filter → List NearEarthObject →
    Except PyError (Option Filter × List NearEarthObject)
  | [], df, neos => .ok (df, neos)
  | f :: rest, df, neos =>
    if isDistance f then NEOSearcher.filterLoop rest (some f) neos
    else
      match Filter.apply NearEarthObject.getattr f neos with
      | .error e => .error e
      | .ok neos2 => NEOSearcher.filterLoop rest df neos2

/-- `list(set(l))`: deduplication by value.  Python's set iterates in an
unspecified order; this model keeps the last occurrence of each element in
input order, an order the specification explicitly leaves unconstrained.
(On an index built one instance per name, Python's identity-based set
membership coincides with value equality.) -/
def pySetToList [DecidableEq α] : List α → List α
  | [] => []
  | a :: rest => if a ∈ rest then pySetToList rest else a :: pySetToList rest

/-- The value `get_objects` returns: a list of entries (possibly holding the
`None` that `dict.get` can produce) or a list of orbit events. -/
inductive QueryResult
  | neos (l : List (Option NearEarthObject))
  | orbits (l : List OrbitPath)
deriving DecidableEq, Repr

/-- Length of the returned list. -/
def QueryResult.len : QueryResult → Nat
  | .neos l => l.length
  | .orbits l => l.length

/-- Python `l[: int(n)]`: for a non-negative bound, the first `n` elements;
for a negative bound, all but the last `-n`. -/
def pyTake (n : Int) (l : List α) : List α :=
  if 0 ≤ n then l.take n.toNat else l.take ((l.length : Int) + n).toNat

/-- The final slice `[: int(query.number)]` of search.py lines 213-214. -/
def QueryResult.truncate (n : Int) : QueryResult → QueryResult
  | .neos l => .neos (pyTake n l)
  | .orbits l => .orbits (pyTake n l)

/-- search.py lines 183-212 of `get_objects`, up to and including the
deduplication `list(set(...))` of lines 209-210, with the result shape
already selected (the source deduplicates both lists and then picks one;
selecting first and deduplicating that list is the same value): date
selection, the filter loop with the distance filter held back, expansion to
orbit paths, the optional distance filtering with contraction back to
entries, and deduplication. -/
def NEOSearcher.get_objectsDeduped (db : NEODatabase) (q : Selectors) :
    Except PyError QueryResult :=
  match NEOSearcher.dateStage db q with
  | .error e => .error e
  | .ok neos =>
    match NEOSearcher.filterLoop q.filters none neos with
    | .error e => .error e
    | .ok (df?, neos2) =>
      let orbits := NEOSearcher.return_orbit_paths_from_neos neos2
      match
        (match df? with
         | none => Except.ok (neos2.map some, orbits)
         | some df =>
           match Filter.apply OrbitPath.getattr df orbits with
           | .error e => Except.error e
           | .ok fo => Except.ok (NEOSearcher.return_neo_from_orbit_path db fo, fo)) with
      | .error e => .error e
      | .ok (fneos, forbits) =>
        if q.return_object == some ReturnObj.Path then
          .ok (QueryResult.orbits (pySetToList forbits))
        else .ok (QueryResult.neos (pySetToList fneos))

/-- search.py lines 168-214: `NEOSearcher.get_objects`, the deduplicated
pipeline followed by the final truncating slice (`query.number` is already an
integer in the embedded plan, so `int(...)` is the identity). -/
def NEOSearcher.get_objects (db : NEODatabase) (q : Selectors) :
    Except PyError QueryResult :=
  match NEOSearcher.get_objectsDeduped db q with
  | .error e => .error e
  | .ok r => .ok (r.truncate q.number)

/-- First-some choice on options. -/
def optOr (a b : Option α) : Option α :=
  match a with
  | some x => some x
  | none => b

/-- The last `distance` filter of a plan's filter list, if any (a later one
wins over an earlier one, as each loop iteration overwrites the variable). -/
def lastDistanceFilter : List Filter → Option Filter
  | [] => none
  | f :: rest =>
    if isDistance f then optOr (lastDistanceFilter rest) (some f)
    else lastDistanceFilter rest

/-- The filter list with every `distance` filter removed except the last. -/
def dropShadowedDistance (fs : List Filter) : List Filter :=
  fs.filter (fun f => !isDistance f) ++ (lastDistanceFilter fs).toList

/-- Sequential application of a filter list to an entry list, each filter
consuming the previous output. -/
def applyChain : List Filter → List NearEarthObject → Except PyError (List NearEarthObject)
  | [], neos => .ok neos
  | f :: rest, neos =>
    match Filter.apply NearEarthObject.getattr f neos with
    | .error e => .error e
    | .ok neos2 => applyChain rest neos2

/-- Whether the stored date value is a plain string (the `equals` shape). -/
def PyDateVal.isStrVal : PyDateVal → Bool
  | .str _ => true
  | .list _ => false

/-- Whether the stored date value is a two-element list of present dates
(the `between` shape with both bounds supplied). -/
def PyDateVal.isSomePair : PyDateVal → Bool
  | .list [some _, some _] => true
  | _ => false

/-- A plan is valid when its date descriptor is one of the two shapes
`build_query` produces with present dates, and every filter names a field of
the fixed field table and an operator of the fixed operator table. -/
def validPlanB (q : Selectors) : Bool :=
  ((q.date_search.type == "equals" && q.date_search.values.isStrVal) ||
   (q.date_search.type == "between" && q.date_search.values.isSomePair)) &&
  q.filters.all
    (fun f =>
      (f.field == "diameter" || f.field == "is_hazardous" || f.field == "distance") &&
      (f.operation == "=" || f.operation == ">" || f.operation == ">="))

/-- Modelled from the spec: the comparison §4.2 prescribes for the diameter
and distance fields — "equals/greater-than/greater-or-equal on diameter and
distance compare as floats", i.e. numerically on the float values of the
attribute and of the filter value. -/
def specFloatCompare (op : String) (attr v : Rat) : Bool :=
  if op == "=" then attr == v
  else if op == ">" then v < attr
  else if op == ">=" then v ≤ attr
  else false

/-- A concrete entry with diameter `float("10.0")` (value 10, `str` rendering
`"10.0"`). -/
def cexNeo : NearEarthObject := ⟨"1", "X", ⟨10, "10.0"⟩, "False", []⟩

/-- The 2020-01-01 approach event of the scenario entry `A`, 500 km miss. -/
def orbitA1 : OrbitPath := ⟨"A", ⟨500, "500.0"⟩, some "2020-01-01"⟩

/-- The 2020-01-02 approach event of the scenario entry `A`, 50 km miss. -/
def orbitA2 : OrbitPath := ⟨"A", ⟨50, "50.0"⟩, some "2020-01-02"⟩

/-- The scenario entry `A` with its two approach events. -/
def neoA : NearEarthObject := ⟨"1", "A", ⟨1, "1.0"⟩, "False", [orbitA1, orbitA2]⟩

/-- The index holding `A` under both of its approach dates. -/
def dbA : NEODatabase := ⟨[("A", neoA)], [("2020-01-01", [neoA]), ("2020-01-02", [neoA])]⟩

/-- The scenario plan: exact date 2020-01-01, cap 5, no filters, entry shape. -/
def qA : Selectors := ⟨⟨"equals", .str "2020-01-01"⟩, 5, [], some .NEO⟩

/-- A hazardous-flagged entry used to exercise a passing filter. -/
def wNeoT : NearEarthObject := ⟨"2", "T", ⟨2, "2.0"⟩, "True", []⟩

/-- A non-hazardous-flagged entry used to exercise a failing filter. -/
def wNeoF : NearEarthObject := ⟨"3", "F", ⟨3, "3.0"⟩, "False", []⟩

/-- The filter `is_hazardous:=:True`. -/
def wFilter : Filter := ⟨"is_hazardous", "NearEarthObject", "=", "True"⟩

/-- A small valid plan: exact date, cap 1, no filters, entry shape. -/
def wPlan : Selectors := ⟨⟨"equals", .str "2020-01-01"⟩, 1, [], some .NEO⟩

/-- Claim C1 (counterexample): the comparison is not numeric.  The entry with
diameter `float("10.0")` is dropped by the filter `diameter > 9` (Python
falls back to comparing the strings `"10.0" > "9"`, which is false), although
10.0 > 9 as floats; and `diameter = 10.0` is false on the very same attribute
value because Python `float == str` is `False`, although the float values are
equal. -/
theorem filter_float_comparison_cex :
    Filter.applyOne NearEarthObject.getattr ⟨"diameter", "NearEarthObject", ">", "9"⟩ cexNeo =
      .ok false ∧
    specFloatCompare ">" (10 : Rat) (9 : Rat) = true ∧
    Filter.applyOne NearEarthObject.getattr ⟨"diameter", "NearEarthObject", "=", "10.0"⟩ cexNeo =
      .ok false ∧
    specFloatCompare "=" (10 : Rat) (10 : Rat) = true :=
  ⟨rfl, rfl, rfl, rfl⟩

/-- Claim C1 (amended): for a filter on the diameter or distance field,
equality compares the float attribute with the string token and is always
false; greater-than and greater-or-equal fall back to Python string
comparison of `str(attribute)` against the token; equality on the hazard
flag compares the stored flag string with the token for string equality. -/
theorem filter_compare_string_semantics (f : Filter) (n : NearEarthObject) (o : OrbitPath) :
    (f.field = "diameter" → f.operation = "=" →
      Filter.applyOne NearEarthObject.getattr f n = .ok false) ∧
    (f.field = "diameter" → f.operation = ">" →
      Filter.applyOne NearEarthObject.getattr f n =
        .ok (pyStrLt f.value n.diameter_min_km.str)) ∧
    (f.field = "diameter" → f.operation = ">=" →
      Filter.applyOne NearEarthObject.getattr f n =
        .ok (pyStrLe f.value n.diameter_min_km.str)) ∧
    (f.field = "distance" → f.operation = "=" →
      Filter.applyOne OrbitPath.getattr f o = .ok false) ∧
    (f.field = "distance" → f.operation = ">" →
      Filter.applyOne OrbitPath.getattr f o =
        .ok (pyStrLt f.value o.miss_distance_kilometers.str)) ∧
    (f.field = "distance" → f.operation = ">=" →
      Filter.applyOne OrbitPath.getattr f o =
        .ok (pyStrLe f.value o.miss_distance_kilometers.str)) ∧
    (f.field = "is_hazardous" → f.operation = "=" →
      Filter.applyOne NearEarthObject.getattr f n =
        .ok (n.is_potentially_hazardous_asteroid == f.value)) := by
  obtain ⟨fl, ob, op, vl⟩ := f
  refine ⟨?_, ?_, ?_, ?_, ?_, ?_, ?_⟩ <;> intro h1 h2 <;> subst h1 <;> subst h2 <;> rfl

/-- Claim C1 (witness for the amended theorem): equality of the diameter
attribute `float("10.0")` against the token `"10.0"` evaluates to false. -/
theorem filter_compare_string_semantics_w :
    Filter.applyOne NearEarthObject.getattr ⟨"diameter", "NearEarthObject", "=", "10.0"⟩ cexNeo =
      .ok false :=
  (filter_compare_string_semantics ⟨"diameter", "NearEarthObject", "=", "10.0"⟩ cexNeo
    orbitA1).1 rfl rfl

/-- Claim C2 (code behavior at the failing inputs): `build_query` with the
unrecognized result-shape name `"Foo"` does not fail — it returns a plan
whose `return_object` slot is `None`; and with the unrecognized filter token
`"foo:=:1"` it raises `KeyError` (from `NearEarthObject()` inside
`create_filter_options`), not `UnsupportedFeature`. -/
theorem build_query_unrecognized_cex :
    Query.build_query ⟨some "2020-01-01", none, none, 5, none, "Foo"⟩ =
      .ok ⟨⟨"equals", PyDateVal.str "2020-01-01"⟩, 5, [], none⟩ ∧
    Query.build_query ⟨some "2020-01-01", none, none, 5, some ["foo:=:1"], "NEO"⟩ =
      .error PyError.keyError :=
  ⟨rfl, rfl⟩

/-- Claim C3 (code behavior at the failing input): loading a single
well-formed record raises `TypeError` — `load_data` subscripts the by-name
dict with the unhashable list literal `['name']` — so no Catalog Entry is
ever created. -/
theorem load_data_typeerror_cex :
    NEODatabase.load_data ⟨[], []⟩
      [[("name", "A"), ("miss_distance_kilometers", "500"),
        ("close_approach_date", "2020-01-01")]] = .error PyError.typeError :=
  rfl

/-- Claim C6: on the index holding entry `A` with events on 2020-01-01
(distance 500) and 2020-01-02 (distance 50), the query with exact date
2020-01-01, no filters, cap 5 and entry shape returns exactly the
one-element entry list `[A]`. -/
theorem scenario_equal_date_entry_shape :
    NEOSearcher.get_objects dbA qA = .ok (QueryResult.neos [some neoA]) :=
  rfl

/-- Claim C7: a successful filter application returns a sublist of its input
(relative order preserved, every element drawn from the input), so the
output length never exceeds the input length. -/
theorem filter_apply_sublist {α : Type} (ga : α → String → Option PyVal) (f : Filter)
    (l res : List α) (h : Filter.apply ga f l = .ok res) :
    res.Sublist l ∧ res.length ≤ l.length := by
  have hs : res.Sublist l := by
    induction l generalizing res with
    | nil =>
      simp only [Filter.apply] at h
      injection h with h
      subst h
      exact List.Sublist.refl []
    | cons x rest ih =>
      simp only [Filter.apply] at h
      cases hx : Filter.applyOne ga f x with
      | error e => simp only [hx] at h; exact Except.noConfusion h
      | ok b =>
        simp only [hx] at h
        cases hr : Filter.apply ga f rest with
        | error e => simp only [hr] at h; exact Except.noConfusion h
        | ok tail =>
          simp only [hr] at h
          injection h with h
          subst h
          cases b with
          | false => exact (ih tail hr).cons x
          | true => exact (ih tail hr).cons₂ x
  exact ⟨hs, hs.length_le⟩

/-- Claim C7 (witness): filtering `[T, F]` by `is_hazardous = True` keeps
`[T]`, a sublist of length 1 ≤ 2. -/
theorem filter_apply_sublist_w :
    List.Sublist [wNeoT] [wNeoT, wNeoF] ∧ [wNeoT].length ≤ [wNeoT, wNeoF].length :=
  filter_apply_sublist NearEarthObject.getattr wFilter [wNeoT, wNeoF] [wNeoT] rfl

/-- Claim C8: filtering is idempotent — reapplying a filter to its own
successful output returns that output unchanged. -/
theorem filter_apply_idempotent {α : Type} (ga : α → String → Option PyVal) (f : Filter)
    (l res : List α) (h : Filter.apply ga f l = .ok res) :
    Filter.apply ga f res = .ok res := by
  induction l generalizing res with
  | nil =>
    simp only [Filter.apply] at h
    injection h with h
    subst h
    rfl
  | cons x rest ih =>
    simp only [Filter.apply] at h
    cases hx : Filter.applyOne ga f x with
    | error e => simp only [hx] at h; exact Except.noConfusion h
    | ok b =>
      simp only [hx] at h
      cases hr : Filter.apply ga f rest with
      | error e => simp only [hr] at h; exact Except.noConfusion h
      | ok tail =>
        simp only [hr] at h
        injection h with h
        subst h
        cases b with
        | false => exact ih tail hr
        | true =>
          have ht := ih tail hr
          simp [Filter.apply, hx, ht]

/-- Claim C8 (witness): reapplying `is_hazardous = True` to its output `[T]`
returns `[T]` again. -/
theorem filter_apply_idempotent_w :
    Filter.apply NearEarthObject.getattr wFilter [wNeoT] = .ok [wNeoT] :=
  filter_apply_idempotent NearEarthObject.getattr wFilter [wNeoT, wNeoF] [wNeoT] rfl

/-- With both bounds present strings, the between search never raises and
collects exactly the value lists of the in-range keys, in index order. -/
lemma between_some_eq (nd : List (String × List NearEarthObject)) (s e : String) :
    NEOSearcher.return_date_search_between nd (some s) (some e) =
      .ok ((nd.filter (fun kv => pyStrGe kv.1 s && pyStrLe kv.1 e)).foldr
            (fun kv acc => kv.2 ++ acc) []) := by
  induction nd with
  | nil => rfl
  | cons kv rest ih =>
    obtain ⟨k, v⟩ := kv
    cases h1 : pyStrGe k s with
    | false =>
      simp [NEOSearcher.return_date_search_between, h1, ih, List.filter_cons]
    | true =>
      cases h2 : pyStrLe k e with
      | false =>
        simp [NEOSearcher.return_date_search_between, h1, h2, ih, List.filter_cons]
      | true =>
        simp [NEOSearcher.return_date_search_between, h1, h2, ih, List.filter_cons]

/-- Claim C5: in between mode with present bounds, the date-selection stage
collects exactly the entries registered under every date key `k` with
`start <= k <= end` in Python string (lexicographic) order, inclusive at both
ends, in index order — entries under out-of-range keys excluded, and an
entry repeated once per in-range key it is registered under. -/
theorem between_collects_inclusive (nd : List (String × List NearEarthObject)) (s e : String) :
    NEOSearcher.return_date_search_between nd (some s) (some e) =
      .ok ((nd.filter (fun kv => pyStrGe kv.1 s && pyStrLe kv.1 e)).foldr
            (fun kv acc => kv.2 ++ acc) []) :=
  between_some_eq nd s e

/-- Claim C4: with a non-negative cap, whenever the deduplicated pipeline
stage succeeds the search returns a result of length `min cap available`,
in particular never exceeding the cap (and never padding or failing when the
cap exceeds the available count). -/
theorem get_objects_cap (db : NEODatabase) (q : Selectors) (full : QueryResult)
    (hn : 0 ≤ q.number) (h : NEOSearcher.get_objectsDeduped db q = .ok full) :
    ∃ r, NEOSearcher.get_objects db q = .ok r ∧
      r.len = min q.number.toNat full.len ∧ r.len ≤ q.number.toNat := by
  refine ⟨full.truncate q.number, ?_, ?_, ?_⟩
  · unfold NEOSearcher.get_objects
    rw [h]
  · cases full with
    | neos l =>
      simp only [QueryResult.truncate, QueryResult.len, pyTake, if_pos hn, List.length_take]
    | orbits l =>
      simp only [QueryResult.truncate, QueryResult.len, pyTake, if_pos hn, List.length_take]
  · cases full with
    | neos l =>
      simp only [QueryResult.truncate, QueryResult.len, pyTake, if_pos hn, List.length_take]
      exact Nat.min_le_left _ _
    | orbits l =>
      simp only [QueryResult.truncate, QueryResult.len, pyTake, if_pos hn, List.length_take]
      exact Nat.min_le_left _ _

/-- Claim C4 (witness): on the scenario index and plan, the cap 5 exceeds the
single available entry, and exactly that entry is returned. -/
theorem get_objects_cap_w :
    ∃ r, NEOSearcher.get_objects dbA qA = .ok r ∧
      r.len = min qA.number.toNat (QueryResult.neos [some neoA]).len ∧
      r.len ≤ qA.number.toNat :=
  get_objects_cap dbA qA (QueryResult.neos [some neoA]) (by decide) rfl

lemma optOr_none_right (a : Option α) : optOr a none = a := by
  cases a <;> rfl

lemma optOr_assoc (a b c : Option α) : optOr (optOr a b) c = optOr a (optOr b c) := by
  cases a <;> rfl

lemma lastDistanceFilter_append (a b : List Filter) :
    lastDistanceFilter (a ++ b) = optOr (lastDistanceFilter b) (lastDistanceFilter a) := by
  induction a with
  | nil => simp [lastDistanceFilter, optOr_none_right]
  | cons f rest ih =>
    cases hf : isDistance f with
    | false => simp [lastDistanceFilter, hf, ih]
    | true => simp [lastDistanceFilter, hf, ih, optOr_assoc]

lemma lastDistanceFilter_filter_not (fs : List Filter) :
    lastDistanceFilter (fs.filter (fun f => !isDistance f)) = none := by
  induction fs with
  | nil => rfl
  | cons f rest ih =>
    cases hf : isDistance f with
    | false => simp [List.filter_cons, hf, lastDistanceFilter, ih]
    | true => simp [List.filter_cons, hf, ih]

lemma lastDistanceFilter_spec (fs : List Filter) (g : Filter)
    (h : lastDistanceFilter fs = some g) : g ∈ fs ∧ isDistance g = true := by
  induction fs with
  | nil => exact Option.noConfusion h
  | cons f rest ih =>
    by_cases hf : isDistance f = true
    · simp only [lastDistanceFilter, if_pos hf] at h
      cases hl : lastDistanceFilter rest with
      | none =>
        rw [hl] at h
        simp only [optOr] at h
        injection h with h
        subst h
        exact ⟨List.mem_cons_self f rest, hf⟩
      | some x =>
        rw [hl] at h
        simp only [optOr] at h
        injection h with h
        subst h
        obtain ⟨hm, hd⟩ := ih hl
        exact ⟨List.mem_cons_of_mem f hm, hd⟩
    · simp only [lastDistanceFilter, if_neg hf] at h
      obtain ⟨hm, hd⟩ := ih h
      exact ⟨List.mem_cons_of_mem f hm, hd⟩

lemma filter_dropShadowed (fs : List Filter) :
    (dropShadowedDistance fs).filter (fun f => !isDistance f) =
      fs.filter (fun f => !isDistance f) := by
  unfold dropShadowedDistance
  rw [List.filter_append]
  have h1 : (fs.filter (fun f => !isDistance f)).filter (fun f => !isDistance f) =
      fs.filter (fun f => !isDistance f) := by
    induction fs with
    | nil => rfl
    | cons f rest ih =>
      cases hf : isDistance f with
      | false => simp [List.filter_cons, hf, ih]
      | true => simp [List.filter_cons, hf, ih]
  have h2 : ((lastDistanceFilter fs).toList).filter (fun f => !isDistance f) = [] := by
    cases hl : lastDistanceFilter fs with
    | none => rfl
    | some g => simp [Option.toList, List.filter_cons, (lastDistanceFilter_spec fs g hl).2]
  rw [h1, h2, List.append_nil]

lemma lastDistanceFilter_dropShadowed (fs : List Filter) :
    lastDistanceFilter (dropShadowedDistance fs) = lastDistanceFilter fs := by
  unfold dropShadowedDistance
  rw [lastDistanceFilter_append, lastDistanceFilter_filter_not, optOr_none_right]
  cases hl : lastDistanceFilter fs with
  | none => rfl
  | some g =>
    simp [Option.toList, lastDistanceFilter, (lastDistanceFilter_spec fs g hl).2, optOr]

lemma filterLoop_eq (fs : List Filter) (df : Option Filter) (neos : List NearEarthObject) :
    NEOSearcher.filterLoop fs df neos =
      match applyChain (fs.filter (fun f => !isDistance f)) neos with
      | .error e => .error e
      | .ok ns => .ok (optOr (lastDistanceFilter fs) df, ns) := by
  induction fs generalizing df neos with
  | nil => rfl
  | cons f rest ih =>
    cases hf : isDistance f with
    | true =>
      have e1 : (f :: rest).filter (fun f => !isDistance f) =
          rest.filter (fun f => !isDistance f) := by
        simp [List.filter_cons, hf]
      have e2 : optOr (lastDistanceFilter (f :: rest)) df =
          optOr (lastDistanceFilter rest) (some f) := by
        have hx : lastDistanceFilter (f :: rest) =
            optOr (lastDistanceFilter rest) (some f) := by
          simp [lastDistanceFilter, hf]
        rw [hx, optOr_assoc]
        rfl
      simp only [NEOSearcher.filterLoop, hf, if_true, e1, e2]
      exact ih (some f) neos
    | false =>
      have e1 : (f :: rest).filter (fun f => !isDistance f) =
          f :: rest.filter (fun f => !isDistance f) := by
        simp [List.filter_cons, hf]
      have e3 : lastDistanceFilter (f :: rest) = lastDistanceFilter rest := by
        simp [lastDistanceFilter, hf]
      simp only [NEOSearcher.filterLoop, hf, Bool.false_eq_true, if_false, e1, e3, applyChain]
      cases hap : Filter.apply NearEarthObject.getattr f neos with
      | error e => rfl
      | ok ns2 => exact ih df ns2

lemma get_objects_filters_ext (db : NEODatabase) (q : Selectors) (fs : List Filter)
    (h : ∀ neos, NEOSearcher.filterLoop fs none neos =
        NEOSearcher.filterLoop q.filters none neos) :
    NEOSearcher.get_objects db (q.withFilters fs) = NEOSearcher.get_objects db q := by
  unfold NEOSearcher.get_objects NEOSearcher.get_objectsDeduped
  have hds : NEOSearcher.dateStage db (q.withFilters fs) = NEOSearcher.dateStage db q := rfl
  rw [hds]
  dsimp only [Selectors.withFilters]
  cases NEOSearcher.dateStage db q with
  | error e => rfl
  | ok neos =>
    dsimp only
    rw [h neos]

lemma applyOne_eq {α : Type} (ga : α → String → Option PyVal) (f : Filter) (x : α) :
    Filter.applyOne ga f x =
      match Filter.Options f.field with
      | none => .error .typeError
      | some attr =>
        match ga x attr with
        | none => .error .attributeError
        | some v =>
          match Filter.Operators f.operation with
          | none => .error .typeError
          | some op => .ok (evalCompare op v f.value) := rfl

lemma apply_neo_total (f : Filter)
    (hf : f.field = "diameter" ∨ f.field = "is_hazardous")
    (hop : f.operation = "=" ∨ f.operation = ">" ∨ f.operation = ">=") :
    ∀ l : List NearEarthObject, ∃ res, Filter.apply NearEarthObject.getattr f l = .ok res := by
  intro l
  induction l with
  | nil => exact ⟨[], rfl⟩
  | cons x rest ih =>
    obtain ⟨res, hr⟩ := ih
    have hb : ∃ b, Filter.applyOne NearEarthObject.getattr f x = .ok b := by
      rcases hf with h | h <;> rcases hop with h2 | h2 | h2 <;>
        exact ⟨_, by rw [applyOne_eq, h, h2]; rfl⟩
    obtain ⟨b, hb⟩ := hb
    exact ⟨if b then x :: res else res, by simp [Filter.apply, hb, hr]⟩

lemma apply_orbit_total (f : Filter) (hf : f.field = "distance")
    (hop : f.operation = "=" ∨ f.operation = ">" ∨ f.operation = ">=") :
    ∀ l : List OrbitPath, ∃ res, Filter.apply OrbitPath.getattr f l = .ok res := by
  intro l
  induction l with
  | nil => exact ⟨[], rfl⟩
  | cons x rest ih =>
    obtain ⟨res, hr⟩ := ih
    have hb : ∃ b, Filter.applyOne OrbitPath.getattr f x = .ok b := by
      rcases hop with h2 | h2 | h2 <;>
        exact ⟨_, by rw [applyOne_eq, hf, h2]; rfl⟩
    obtain ⟨b, hb⟩ := hb
    exact ⟨if b then x :: res else res, by simp [Filter.apply, hb, hr]⟩

lemma applyChain_total (fs : List Filter)
    (h : ∀ f ∈ fs,
      (f.field = "diameter" ∨ f.field = "is_hazardous") ∧
      (f.operation = "=" ∨ f.operation = ">" ∨ f.operation = ">=")) :
    ∀ neos, ∃ res, applyChain fs neos = .ok res := by
  induction fs with
  | nil => exact fun neos => ⟨neos, rfl⟩
  | cons f rest ih =>
    intro neos
    obtain ⟨h1, h2⟩ := h f (List.mem_cons_self f rest)
    obtain ⟨ns, hns⟩ := apply_neo_total f h1 h2 neos
    obtain ⟨res, hres⟩ := ih (fun g hg => h g (List.mem_cons_of_mem f hg)) ns
    exact ⟨res, by simp [applyChain, hns, hres]⟩

lemma applyChain_nil (fs : List Filter) : applyChain fs [] = .ok [] := by
  induction fs with
  | nil => rfl
  | cons f rest ih => simp [applyChain, Filter.apply, ih]

lemma validPlanB_filters (q : Selectors) (h : validPlanB q = true) :
    ∀ f ∈ q.filters,
      (f.field = "diameter" ∨ f.field = "is_hazardous" ∨ f.field = "distance") ∧
      (f.operation = "=" ∨ f.operation = ">" ∨ f.operation = ">=") := by
  intro f hf
  unfold validPlanB at h
  rw [Bool.and_eq_true] at h
  have h2 := h.2
  rw [List.all_eq_true] at h2
  have h3 := h2 f hf
  simp only [Bool.and_eq_true, Bool.or_eq_true, beq_iff_eq] at h3
  tauto

lemma dateStage_total (db : NEODatabase) (q : Selectors) (h : validPlanB q = true) :
    ∃ neos, NEOSearcher.dateStage db q = .ok neos := by
  unfold validPlanB at h
  rw [Bool.and_eq_true] at h
  have h1 := h.1
  rw [Bool.or_eq_true] at h1
  rcases h1 with h1 | h1
  · rw [Bool.and_eq_true] at h1
    obtain ⟨he, _⟩ := h1
    exact ⟨_, by unfold NEOSearcher.dateStage; rw [he]; rfl⟩
  · rw [Bool.and_eq_true] at h1
    obtain ⟨hb, hp⟩ := h1
    rw [beq_iff_eq] at hb
    cases hv : q.date_search.values with
    | str s => rw [hv] at hp; simp [PyDateVal.isSomePair] at hp
    | list l =>
      rw [hv] at hp
      rcases l with _ | ⟨a, _ | ⟨b, _ | ⟨c, rest⟩⟩⟩
      · simp [PyDateVal.isSomePair] at hp
      · cases a <;> simp [PyDateVal.isSomePair] at hp
      · cases a with
        | none => simp [PyDateVal.isSomePair] at hp
        | some s =>
          cases b with
          | none => simp [PyDateVal.isSomePair] at hp
          | some e =>
            exact ⟨_, by
              unfold NEOSearcher.dateStage
              rw [hb, hv]
              exact between_some_eq db.neo_date s e⟩
      · simp [PyDateVal.isSomePair] at hp

lemma ifOk_total (c : Bool) (A B : QueryResult) :
    ∃ r, (if c = true then (Except.ok A : Except PyError QueryResult) else .ok B) = .ok r := by
  cases c
  · exact ⟨B, rfl⟩
  · exact ⟨A, rfl⟩

lemma get_objectsDeduped_total (db : NEODatabase) (q : Selectors)
    (h : validPlanB q = true) :
    ∃ r, NEOSearcher.get_objectsDeduped db q = .ok r := by
  obtain ⟨neos, hneos⟩ := dateStage_total db q h
  have hfilters := validPlanB_filters q h
  have hchain : ∀ f ∈ q.filters.filter (fun f => !isDistance f),
      (f.field = "diameter" ∨ f.field = "is_hazardous") ∧
      (f.operation = "=" ∨ f.operation = ">" ∨ f.operation = ">=") := by
    intro f hf
    obtain ⟨hmem, hnd⟩ := List.mem_filter.mp hf
    obtain ⟨h1, h2⟩ := hfilters f hmem
    refine ⟨?_, h2⟩
    rcases h1 with h1 | h1 | h1
    · exact Or.inl h1
    · exact Or.inr h1
    · exfalso
      simp [isDistance, h1] at hnd
  obtain ⟨ns, hns⟩ := applyChain_total _ hchain neos
  have hloop : NEOSearcher.filterLoop q.filters none neos =
      .ok (lastDistanceFilter q.filters, ns) := by
    rw [filterLoop_eq, hns, optOr_none_right]
  unfold NEOSearcher.get_objectsDeduped
  rw [hneos]
  dsimp only
  rw [hloop]
  dsimp only
  cases hld : lastDistanceFilter q.filters with
  | none =>
    dsimp only
    exact ifOk_total _ _ _
  | some df =>
    obtain ⟨hmem, hd⟩ := lastDistanceFilter_spec q.filters df hld
    have hdf : df.field = "distance" := by
      rw [isDistance, beq_iff_eq] at hd
      exact hd
    obtain ⟨fo, hfo⟩ :=
      apply_orbit_total df hdf (hfilters df hmem).2
        (NEOSearcher.return_orbit_paths_from_neos ns)
    dsimp only
    rw [hfo]
    dsimp only
    exact ifOk_total _ _ _

lemma get_objectsDeduped_empty (db : NEODatabase) (q : Selectors)
    (hd : NEOSearcher.dateStage db q = .ok []) :
    ∃ r, NEOSearcher.get_objectsDeduped db q = .ok r ∧ r.len = 0 := by
  have hloop : NEOSearcher.filterLoop q.filters none [] =
      .ok (lastDistanceFilter q.filters, []) := by
    rw [filterLoop_eq, applyChain_nil]
    dsimp only
    rw [optOr_none_right]
  unfold NEOSearcher.get_objectsDeduped
  rw [hd]
  dsimp only
  rw [hloop]
  dsimp only
  cases hld : lastDistanceFilter q.filters with
  | none =>
    cases hc : q.return_object == some ReturnObj.Path with
    | false =>
      exact ⟨QueryResult.neos [],
        by simp [NEOSearcher.return_orbit_paths_from_neos, hc, pySetToList], rfl⟩
    | true =>
      exact ⟨QueryResult.orbits [],
        by simp [NEOSearcher.return_orbit_paths_from_neos, hc, pySetToList], rfl⟩
  | some df =>
    cases hc : q.return_object == some ReturnObj.Path with
    | false =>
      exact ⟨QueryResult.neos [],
        by simp [NEOSearcher.return_orbit_paths_from_neos, Filter.apply,
          NEOSearcher.return_neo_from_orbit_path, hc, pySetToList], rfl⟩
    | true =>
      exact ⟨QueryResult.orbits [],
        by simp [NEOSearcher.return_orbit_paths_from_neos, Filter.apply,
          NEOSearcher.return_neo_from_orbit_path, hc, pySetToList], rfl⟩

/-- Claim C9: on a valid plan the search engine never raises — it returns a
result list — and when the date selection stage matches nothing the returned
list is empty rather than an error. -/
theorem get_objects_total (db : NEODatabase) (q : Selectors) (h : validPlanB q = true) :
    ∃ r, NEOSearcher.get_objects db q = .ok r ∧
      (NEOSearcher.dateStage db q = .ok [] → r.len = 0) := by
  obtain ⟨full, hfull⟩ := get_objectsDeduped_total db q h
  refine ⟨full.truncate q.number, ?_, ?_⟩
  · unfold NEOSearcher.get_objects
    rw [hfull]
  · intro hd
    obtain ⟨r0, hr0, hlen⟩ := get_objectsDeduped_empty db q hd
    rw [hfull] at hr0
    injection hr0 with hr0
    subst hr0
    cases full with
    | neos l =>
      simp only [QueryResult.len] at hlen
      rw [List.length_eq_zero] at hlen
      subst hlen
      simp [QueryResult.truncate, QueryResult.len, pyTake]
    | orbits l =>
      simp only [QueryResult.len] at hlen
      rw [List.length_eq_zero] at hlen
      subst hlen
      simp [QueryResult.truncate, QueryResult.len, pyTake]

/-- Claim C9 (witness): on the empty index with a valid exact-date plan, the
search succeeds and returns the empty result. -/
theorem get_objects_total_w :
    ∃ r, NEOSearcher.get_objects ⟨[], []⟩ wPlan = .ok r ∧
      (NEOSearcher.dateStage ⟨[], []⟩ wPlan = .ok [] → r.len = 0) :=
  get_objects_total ⟨[], []⟩ wPlan (by decide)

/-- Claim C10: the search result is unchanged when every `distance` filter of
the plan except the last is discarded — the loop keeps only the last
`distance` predicate, so earlier ones have no effect on the result. -/
theorem get_objects_last_distance_only (db : NEODatabase) (q : Selectors) :
    NEOSearcher.get_objects db q =
      NEOSearcher.get_objects db (q.withFilters (dropShadowedDistance q.filters)) := by
  have hloop : ∀ neos, NEOSearcher.filterLoop (dropShadowedDistance q.filters) none neos =
      NEOSearcher.filterLoop q.filters none neos := by
    intro neos
    rw [filterLoop_eq, filterLoop_eq, filter_dropShadowed, lastDistanceFilter_dropShadowed]
  exact (get_objects_filters_ext db q (dropShadowedDistance q.filters) hloop).symm

end Starter
